import Mathlib

/-
Shallow embedding of the trade-lifecycle core of the leprechaun trading bot
(Go sources: core/ledger.go, core/bot.go, and the client/record file).
Prices, volumes and margins are Go float64 values; they are modelled here as
exact rationals (ℚ).  Remote exchange calls and the sqlite driver are modelled
by explicit oracle arguments and a value-level table; all definitions are
executable.
-/

namespace Leprechaun

/-- Order type string for a long trade (`OrderType` is a Go string type;
`LongOrder OrderType = "LONG_TRADE"`). -/
def LongOrder : String := "LONG_TRADE"

/-- Order type string for a short trade (`ShortOrder OrderType = "SHORT_TRADE"`). -/
def ShortOrder : String := "SHORT_TRADE"

/-- Analysis signal `SignalWait SIGNAL = "WAIT"` (SIGNAL is a Go string type). -/
def SignalWait : String := "WAIT"

/-- Analysis signal `SignalLong SIGNAL = "GO_LONG"`. -/
def SignalLong : String := "GO_LONG"

/-- Analysis signal `SignalShort SIGNAL = "SHORT_SELL"`. -/
def SignalShort : String := "SHORT_SELL"

/-- The fields of the package-wide `config` object read by the embedded code:
`ProfitMargin` (fraction), `PurchaseUnit` (fiat amount per round) and
`AdjustedPurchaseUnit` (purchase unit plus taker fee, set each round in `Bot.Run`). -/
structure Configuration where
  ProfitMargin : ℚ
  PurchaseUnit : ℚ
  AdjustedPurchaseUnit : ℚ
  deriving Repr, DecidableEq

/-- The `Record` struct of the source (client/record file): one position record.
Field names and order follow the Go struct; float64 fields are rationals here. -/
structure Record where
  Asset : String
  Cost : ℚ
  ID : String
  Price : ℚ
  SaleID : String
  Sold : Bool
  Status : String
  Timestamp : String
  Volume : ℚ
  «Type» : String
  TriggerPrice : ℚ
  LunoAssetFee : ℚ
  LunoFiatFee : ℚ
  deriving Repr, DecidableEq

/-- The Go zero value of `Record`: empty strings, zero numbers, false bool. -/
def zeroRecord : Record :=
  { Asset := "", Cost := 0, ID := "", Price := 0, SaleID := "", Sold := false,
    Status := "", Timestamp := "", Volume := 0, «Type» := "", TriggerPrice := 0,
    LunoAssetFee := 0, LunoFiatFee := 0 }

/-- `NewRecord` (client/record file, lines 148-166): builds a record from the
opening order.  `TriggerPrice` starts at the Go zero value 0 and is set to
`Price + Price*config.ProfitMargin` for a long order and
`Price - Price*config.ProfitMargin` for a short order. -/
def NewRecord (config : Configuration) (asset : String) (price : ℚ) (timestamp : String)
    (volume : ℚ) (id : String) (orderType : String) : Record :=
  let base : Record :=
    { Asset := asset, Cost := price * volume, ID := id, Price := price, SaleID := "",
      Sold := false, Status := "", Timestamp := timestamp, Volume := volume,
      «Type» := orderType, TriggerPrice := 0, LunoAssetFee := 0, LunoFiatFee := 0 }
  if orderType = LongOrder then
    { base with TriggerPrice := base.Price + base.Price * config.ProfitMargin }
  else if orderType = ShortOrder then
    { base with TriggerPrice := base.Price - base.Price * config.ProfitMargin }
  else
    base

/-- A dynamically typed sqlite storage cell: the RECORDS table is created with
no column types, so each cell keeps the storage class of the bound Go value
(TEXT for strings, REAL for float64, INTEGER for bool). -/
inductive SqlValue where
  | text (s : String)
  | real (q : ℚ)
  | intv (n : ℤ)
  deriving Repr, DecidableEq

/-- One row of the RECORDS table, with the column names of `databaseInit`:
CREATE TABLE RECORDS (ASSET, COST, ID, PRICE, SALE_ID, SOLD, STATUS, TIMESTAMP,
VOLUME, TYPE, TRIGGER_PRICE).  No key or uniqueness constraint is declared. -/
structure LedgerRow where
  ASSET : SqlValue
  COST : SqlValue
  ID : SqlValue
  PRICE : SqlValue
  SALE_ID : SqlValue
  SOLD : SqlValue
  STATUS : SqlValue
  TIMESTAMP : SqlValue
  VOLUME : SqlValue
  TYPE : SqlValue
  TRIGGER_PRICE : SqlValue
  deriving Repr, DecidableEq

/-- go-sqlite3 binds a Go bool parameter as the integer 0 or 1. -/
def sqlBool (b : Bool) : SqlValue := .intv (if b then 1 else 0)

/-- The row bound by `Ledger.AddRecord`'s INSERT (ledger.go line 214).  The
source passes `rec.Timestamp` twice: once for the TIMESTAMP column and again
in the position of the TRIGGER_PRICE column, so the trigger price computed at
creation never reaches the table. -/
def recordRow (rec : Record) : LedgerRow :=
  { ASSET := .text rec.Asset, COST := .real rec.Cost, ID := .text rec.ID,
    PRICE := .real rec.Price, SALE_ID := .text rec.SaleID, SOLD := sqlBool rec.Sold,
    STATUS := .text rec.Status, TIMESTAMP := .text rec.Timestamp,
    VOLUME := .real rec.Volume, TYPE := .text rec.«Type»,
    TRIGGER_PRICE := .text rec.Timestamp }

/-- The RECORDS table is an unconstrained bag of rows. -/
abbrev RecordsTable := List LedgerRow

/-- `Ledger.AddRecord` (ledger.go lines 200-222): a plain INSERT into the
unconstrained RECORDS table; sqlite accepts it and appends the row. -/
def AddRecord (table : RecordsTable) (rec : Record) : Except String RecordsTable :=
  .ok (table ++ [recordRow rec])

/-- Acceptance test of `strconv.ParseFloat` restricted to the strings this
program stores in numeric columns (decimal numerals and timestamps such as
"2006-01-02 15:04:05"): an optional sign, then digits with at most one
decimal point; anything else is rejected. -/
def goParseFloatOK (s : String) : Bool :=
  let cs := s.toList
  let cs := match cs with
    | '+' :: t => t
    | '-' :: t => t
    | _ => cs
  let ip := cs.takeWhile Char.isDigit
  let rest := cs.dropWhile Char.isDigit
  match rest with
  | [] => !ip.isEmpty
  | '.' :: frac => (!ip.isEmpty || !frac.isEmpty) && frac.all Char.isDigit
  | _ => false

/-- Whether `database/sql` can assign a stored cell to a Go float64 target:
REAL and INTEGER storage convert, TEXT goes through `strconv.ParseFloat`. -/
def scanFloatOK : SqlValue → Bool
  | .real _ => true
  | .intv _ => true
  | .text s => goParseFloatOK s

/-- Whether a stored cell can be assigned to a Go bool target (the driver
returns the INTEGER storage 0/1 for a bound bool). -/
def scanBoolOK : SqlValue → Bool
  | .intv n => n = 0 || n = 1
  | _ => false

/-- Model of `scanRows` (ledger.go lines 84-87).  The caller passes its
`Record` BY VALUE, so whatever `rows.Scan` writes into the copy is lost; the
only observable output is the error.  String targets accept every storage
class; the float64 targets (COST, PRICE, VOLUME, TRIGGER_PRICE) and the bool
target (SOLD) can fail, in the column order of the Scan call. -/
def scanRowsErr (row : LedgerRow) : Option String :=
  if !scanFloatOK row.COST then some "converting COST"
  else if !scanFloatOK row.PRICE then some "converting PRICE"
  else if !scanBoolOK row.SOLD then some "converting SOLD"
  else if !scanFloatOK row.VOLUME then some "converting VOLUME"
  else if !scanFloatOK row.TRIGGER_PRICE then some "converting TRIGGER_PRICE"
  else none

/-- Rows returned by the `typeSearchOp` query:
SELECT * FROM RECORDS WHERE ASSET = ? AND TYPE = ?. -/
def typeSearch (table : RecordsTable) (asset orderType : String) : List LedgerRow :=
  table.filter fun row =>
    decide (row.ASSET = SqlValue.text asset) && decide (row.TYPE = SqlValue.text orderType)

/-- The row loop of `Ledger.GetRecordsByType`: for each row a fresh zero
`Record` is created, `scanRows` is called with it by value, and on a scan
error the Go named returns deliver the records accumulated so far together
with the error. -/
def getRecordsLoop : List LedgerRow → List Record → List Record × Option String
  | [], acc => (acc, none)
  | row :: rows, acc =>
    match scanRowsErr row with
    | some e => (acc, some e)
    | none => getRecordsLoop rows (acc ++ [zeroRecord])

/-- `Ledger.GetRecordsByType` (ledger.go lines 138-166). -/
def GetRecordsByType (table : RecordsTable) (asset orderType : String) :
    List Record × Option String :=
  getRecordsLoop (typeSearch table asset orderType) []

/-- `Ledger.DeleteRecord` (ledger.go lines 115-135): DELETE FROM RECORDS WHERE
ID = ?.  sqlite reports success whether or not any row matched. -/
def DeleteRecord (table : RecordsTable) (id : String) : Except String RecordsTable :=
  .ok (table.filter fun row => !decide (row.ID = SqlValue.text id))

/-- Ledger handle state: `isOpen` is the struct flag set by the source,
`dbOpen` tracks whether the underlying sqlite handle is still open. -/
structure Ledger where
  isOpen : Bool
  dbOpen : Bool
  deriving Repr, DecidableEq

/-- `Ledger.loadDatabase` (ledger.go lines 233-256): opens the sqlite handle
and sets `isOpen = true`. -/
def loadDatabase (l : Ledger) : Ledger :=
  { l with isOpen := true, dbOpen := true }

/-- `Bot.Ledger()` (ledger.go lines 44-48): a fresh handle on which
`loadDatabase` has run. -/
def botLedger : Ledger :=
  loadDatabase { isOpen := false, dbOpen := false }

/-- `Ledger.Save` (ledger.go lines 225-231), exactly as written: the source
calls `l.db.Close()` only when `!l.isOpen`, then sets `isOpen = false`. -/
def Save (l : Ledger) : Ledger :=
  let l1 := if !l.isOpen then { l with dbOpen := false } else l
  { l1 with isOpen := false }

/-- The per-record viability test of `CompleteShortTrades` (bot.go lines
445-457): skip (continue) when `currentPrice > rec.TriggerPrice`, otherwise
append to `viablePendingRecords`. -/
def shortViableRecords (currentPrice : ℚ) (pendingRecords : List Record) : List Record :=
  pendingRecords.filter fun rec =>
    if currentPrice > rec.TriggerPrice then false else true

/-- The per-record viability test of `CompleteLongTrades` (bot.go lines
521-533): skip when `currentPrice < rec.TriggerPrice`, otherwise append. -/
def longViableRecords (currentPrice : ℚ) (pendingRecords : List Record) : List Record :=
  pendingRecords.filter fun rec =>
    if currentPrice < rec.TriggerPrice then false else true

/-- Side of a market order placed on the exchange: `Client.bid` posts
`luno.OrderTypeBuy`, `Client.ask` posts `luno.OrderTypeSell`. -/
inductive Side where
  | buy
  | sell
  deriving Repr, DecidableEq

/-- Observable steps of one closing sweep over the viable records. -/
inductive SweepEvent where
  | orderPlaced (side : Side) (recID : String) (success : Bool)
  | statsRecorded (recID : String)
  | recordDeleted (recID : String)
  deriving Repr, DecidableEq

/-- The closing loop of `CompleteLongTrades` (bot.go lines 539-559) over the
viable records.  The close call the source makes is `cl.bid` — a BUY order —
and only when it returns without error are `NewSale` and
`Ledger.DeleteRecord` executed; on error the record is left untouched. -/
def completeLongTradesPass (bidResult : Record → Except String String)
    (viable : List Record) : List SweepEvent :=
  viable.flatMap fun rec =>
    match bidResult rec with
    | .error _ => [.orderPlaced .buy rec.ID false]
    | .ok _ => [.orderPlaced .buy rec.ID true, .statsRecorded rec.ID, .recordDeleted rec.ID]

/-- The closing loop of `CompleteShortTrades` (bot.go lines 465-483): the
close call the source makes is `cl.ask` — a SELL order — and only on its
success are `NewPurchase` and `Ledger.DeleteRecord` executed. -/
def completeShortTradesPass (askResult : Record → Except String String)
    (viable : List Record) : List SweepEvent :=
  viable.flatMap fun rec =>
    match askResult rec with
    | .error _ => [.orderPlaced .sell rec.ID false]
    | .ok _ => [.orderPlaced .sell rec.ID true, .statsRecorded rec.ID, .recordDeleted rec.ID]

/-- The response struct of `luno.PostMarketOrder`; the SDK returns a nil
pointer together with a non-nil error on failure, modelled as `Option`. -/
structure PostMarketOrderResponse where
  OrderId : String
  deriving Repr, DecidableEq

/-- Result of running `Client.bid` or `Client.ask` to completion: either the
Go function returns `(orderID, err)`, or it hits a nil-pointer dereference. -/
inductive OrderCallOutcome where
  | panicked
  | returned (orderID : String) (err : Option String)
  deriving Repr, DecidableEq

/-- `Client.bid` (part_005 lines 260-276): the source assigns
`orderID = res.OrderId` BEFORE checking `err`, so on a failed call (nil
response) the access dereferences nil; with a non-nil response the field is
read and the pair is returned whatever the error is. -/
def bid (res : Option PostMarketOrderResponse) (err : Option String) : OrderCallOutcome :=
  match res with
  | none => .panicked
  | some r => .returned r.OrderId err

/-- `Client.ask` (part_005 lines 279-297): checks `err` first and returns the
zero `orderID` with the error; the response is read only on the success path. -/
def ask (res : Option PostMarketOrderResponse) (err : Option String) : OrderCallOutcome :=
  match err with
  | some e => .returned "" (some e)
  | none =>
    match res with
    | none => .panicked
    | some r => .returned r.OrderId none

/-- `Client.CheckBalanceSufficiency` (part_005 lines 399-413).  When the cached
`fiatBalance` is ≤ 0 the source first refreshes balances from the exchange
(the refreshed value is the oracle argument); `canPurchase` is then decided by
comparing the balance against `config.AdjustedPurchaseUnit`. -/
def CheckBalanceSufficiency (config : Configuration) (fiatBalance refreshedBalance : ℚ) :
    Bool × Option String :=
  let purchaseUnit := config.AdjustedPurchaseUnit
  let bal := if fiatBalance ≤ 0 then refreshedBalance else fiatBalance
  if bal < purchaseUnit then (false, some "your fiat balance is insufficient")
  else (true, none)

/-- Observable steps of the signal-dispatch part of one round body of
`Bot.Run` for one client. -/
inductive RoundEvent where
  | openingOrderAttempted (orderType : String)
  | recordPersisted (recID : String)
  | purchaseAlert
  | longSweep
  | shortSweep
  deriving Repr, DecidableEq

/-- How the round body ends: fall through to the next client, or return from
`Bot.Run` ending the session. -/
inductive RoundExit where
  | nextClient
  | sessionStopped (err : String)
  deriving Repr, DecidableEq

/-- Oracle for the exchange and ledger effects reachable from the dispatch. -/
structure RoundOracle where
  goLong : Except String Record
  goShort : Except String Record
  updateOrderDetails : Record → Except String Record
  addRecordErr : Option String

/-- The signal dispatch of `Bot.Run` (bot.go lines 218-302) with no pending
cancellation: on GO_LONG with `canPurchase` an opening bid is attempted and a
successful record is persisted (a ledger write failure ends the session); on
GO_LONG without purchasing power the insufficiency is only logged; on
SHORT_SELL `GoShort` runs (its record is discarded by the source); in every
fall-through case both closing sweeps run before moving on. -/
def runSignalDispatch (signal : String) (canPurchase : Bool) (o : RoundOracle) :
    List RoundEvent × RoundExit :=
  if signal = SignalLong then
    if canPurchase then
      match o.goLong with
      | .error _ => ([.openingOrderAttempted LongOrder, .longSweep, .shortSweep], .nextClient)
      | .ok record =>
        let updatedRecord :=
          match o.updateOrderDetails record with
          | .error _ => record
          | .ok u => u
        match o.addRecordErr with
        | some _ =>
          ([.openingOrderAttempted LongOrder],
           .sessionStopped "the trading session has been cancelled")
        | none =>
          ([.openingOrderAttempted LongOrder, .recordPersisted updatedRecord.ID,
            .purchaseAlert, .longSweep, .shortSweep], .nextClient)
    else
      ([.longSweep, .shortSweep], .nextClient)
  else if signal = SignalShort then
    ([.openingOrderAttempted ShortOrder, .longSweep, .shortSweep], .nextClient)
  else
    ([.longSweep, .shortSweep], .nextClient)

/-- The retry bound of `Bot.Emit`: `retries := 3`. -/
def retries : ℕ := 3

/-- The price-retrieval loop of `Bot.Emit` (bot.go lines 614-622), a Go for
loop `for errCount := 0; errCount < retries; errCount++` carrying the state
`(prices, pricesErr)`; it breaks early when the attempt returned a non-empty
price list and no error.  The fuel argument is `retries - errCount`, so the
loop runs while `errCount < retries`.  Returns the number of attempts made
and the final state. -/
def emitLoopAux (attempt : ℕ → List ℚ × Option String) :
    ℕ → ℕ → List ℚ × Option String → ℕ × (List ℚ × Option String)
  | 0, errCount, st => (errCount, st)
  | fuel + 1, errCount, st =>
    let r := attempt errCount
    if r.1 ≠ [] ∧ r.2 = none then (errCount + 1, r)
    else
      let _ := st
      emitLoopAux attempt fuel (errCount + 1) r

/-- The retry loop of `Bot.Emit`, entered with `errCount = 0` and the zero
state `(nil, nil)`. -/
def emitLoop (attempt : ℕ → List ℚ × Option String) : ℕ × (List ℚ × Option String) :=
  emitLoopAux attempt retries 0 ([], none)

/-- Result of running `Bot.Emit` to completion: either the nil-interface
dereference `err.Error()` fires, or a signal and error pair is returned. -/
inductive EmitOutcome where
  | panicked
  | emitted (signal : String) (err : Option String)
  deriving Repr, DecidableEq

/-- `Bot.Emit` (bot.go lines 608-649) with no pending cancellation.  After the
retry loop, when `pricesErr ≠ nil` or no prices were obtained, the source
evaluates `err.Error()` where `err` is the named return value that has never
been assigned — a nil-interface method call; otherwise Ripple prices are
floored, `Analyze` runs (its error is the oracle `analyze`), and on success
the plugin's signal is emitted.  The number of retrieval attempts made is
the first component of `emitLoop`. -/
def Emit (attempt : ℕ → List ℚ × Option String) (isRipple : Bool)
    (analyze : List ℚ → Option String) (pluginSignal : String) : EmitOutcome :=
  let res := emitLoop attempt
  let prices := res.2.1
  let pricesErr := res.2.2
  if pricesErr ≠ none ∨ prices = [] then
    .panicked
  else
    let prices := if isRipple then prices.map (fun p => ((⌊p⌋ : ℤ) : ℚ)) else prices
    match analyze prices with
    | some e => .emitted SignalWait (some e)
    | none => .emitted pluginSignal none

/-- A configuration with the spec's example numbers: margin 3 percent,
purchase unit 100,000, taker-fee-adjusted unit 101,000. -/
def marginConfig : Configuration :=
  { ProfitMargin := 3 / 100, PurchaseUnit := 100000, AdjustedPurchaseUnit := 101000 }

/-- The spec's short scenario: a short record opened at price 100,000 with
margin 0.03. -/
def shortRec97 : Record :=
  NewRecord marginConfig "XBT" 100000 "2006-01-02 15:04:05" 1 "short-1" ShortOrder

/-- The spec's long scenario: a long record opened at price 5,000,000 with
volume 0.0202 and margin 0.03. -/
def longRec : Record :=
  NewRecord marginConfig "XBT" 5000000 "2006-01-02 15:04:05" (101 / 5000) "long-1" LongOrder

/-- The filter test of the closing sweeps, rewritten as an order relation:
a record is kept iff the skip condition `a < b` fails, that is iff `b ≤ a`. -/
theorem skipIfLt (a b : ℚ) : ((if a < b then false else true) = true) ↔ b ≤ a := by
  by_cases h : a < b
  · rw [if_pos h]
    exact iff_of_false (by simp) (not_le.mpr h)
  · rw [if_neg h]
    exact iff_of_true rfl (le_of_not_lt h)

/-- The long-scenario record carries trigger price 5,150,000. -/
theorem longRec_trigger : longRec.TriggerPrice = 5150000 := by
  norm_num [longRec, NewRecord, marginConfig, LongOrder, ShortOrder]

/-- The short-scenario record carries trigger price 97,000. -/
theorem shortRec97_trigger : shortRec97.TriggerPrice = 97000 := by
  norm_num [shortRec97, NewRecord, marginConfig, LongOrder, ShortOrder]
  rw [if_neg (by decide)]

/-- C1: for every record built by `NewRecord` with opening price P under
profit margin M, a Long record's TriggerPrice is P * (1 + M) and a Short
record's is P * (1 - M); in particular a Long opened at 5,000,000 with margin
0.03 triggers at 5,150,000 and a Short opened at 100,000 with margin 0.03
triggers at 97,000. -/
theorem newRecord_trigger_price :
    (∀ (config : Configuration) (asset : String) (price : ℚ) (ts : String)
       (volume : ℚ) (id : String),
      (NewRecord config asset price ts volume id LongOrder).TriggerPrice
          = price * (1 + config.ProfitMargin) ∧
      (NewRecord config asset price ts volume id ShortOrder).TriggerPrice
          = price * (1 - config.ProfitMargin)) ∧
    longRec.TriggerPrice = 5150000 ∧ shortRec97.TriggerPrice = 97000 := by
  refine ⟨fun config asset price ts volume id => ⟨?_, ?_⟩, longRec_trigger, shortRec97_trigger⟩
  · simp [NewRecord, LongOrder, ShortOrder]
    ring
  · simp [NewRecord, LongOrder, ShortOrder]
    ring

/-- The short-scenario record is selected at current price 96,500. -/
theorem shortViable_at_96500 : shortViableRecords 96500 [shortRec97] = [shortRec97] := by
  have h : ¬ ((96500 : ℚ) > shortRec97.TriggerPrice) := by
    rw [shortRec97_trigger]
    norm_num
  simp [shortViableRecords, if_neg h]
  rw [shortRec97_trigger]
  norm_num

/-- The short-scenario record is not selected at current price 98,000. -/
theorem shortViable_at_98000 : shortViableRecords 98000 [shortRec97] = [] := by
  have h : (98000 : ℚ) > shortRec97.TriggerPrice := by
    rw [shortRec97_trigger]
    norm_num
  simp [shortViableRecords, if_pos h]
  rw [shortRec97_trigger]
  norm_num

/-- C3: in both closing sweeps a pending record is selected as viable iff the
current price has crossed its trigger price in the profitable direction —
`TriggerPrice ≤ currentPrice` for pending Long records and
`currentPrice ≤ TriggerPrice` for pending Short records, equality included;
in particular the Short with trigger 97,000 is viable at 96,500 and not at
98,000. -/
theorem sweep_viability :
    (∀ (currentPrice : ℚ) (pendingRecords : List Record) (rec : Record),
      (rec ∈ longViableRecords currentPrice pendingRecords ↔
        rec ∈ pendingRecords ∧ rec.TriggerPrice ≤ currentPrice) ∧
      (rec ∈ shortViableRecords currentPrice pendingRecords ↔
        rec ∈ pendingRecords ∧ currentPrice ≤ rec.TriggerPrice)) ∧
    shortRec97.TriggerPrice = 97000 ∧
    shortViableRecords 96500 [shortRec97] = [shortRec97] ∧
    shortViableRecords 98000 [shortRec97] = [] := by
  refine ⟨fun currentPrice pendingRecords rec => ⟨?_, ?_⟩,
    shortRec97_trigger, shortViable_at_96500, shortViable_at_98000⟩
  · rw [longViableRecords, List.mem_filter, skipIfLt]
  · rw [shortViableRecords, List.mem_filter]
    exact and_congr_right fun _ => skipIfLt rec.TriggerPrice currentPrice

/-- C5: `DeleteRecord` is idempotent — for every table and id both the first
and the second call return success, and the table after the first call equals
the table after the second. -/
theorem deleteRecord_idempotent :
    ∀ (table : RecordsTable) (id : String),
      DeleteRecord table id
          = Except.ok (table.filter fun row => !decide (row.ID = SqlValue.text id)) ∧
      DeleteRecord (table.filter fun row => !decide (row.ID = SqlValue.text id)) id
          = Except.ok (table.filter fun row => !decide (row.ID = SqlValue.text id)) := by
  intro table id
  refine ⟨rfl, ?_⟩
  simp only [DeleteRecord, List.filter_filter, Bool.and_self]

/-- C2: code bug — the persist/query round trip loses the record.  AddRecord
binds `rec.Timestamp` into the TRIGGER_PRICE column, and GetRecordsByType
passes its Record to scanRows by value, so querying back the freshly inserted
short record (created with trigger price 97,000) yields no records at all,
only a conversion error from scanning the timestamp text into the float64
TriggerPrice field. -/
theorem addRecord_roundtrip_loses_record :
    shortRec97.TriggerPrice = 97000 ∧
    AddRecord [] shortRec97 = Except.ok [recordRow shortRec97] ∧
    (recordRow shortRec97).TRIGGER_PRICE = SqlValue.text "2006-01-02 15:04:05" ∧
    GetRecordsByType [recordRow shortRec97] "XBT" ShortOrder
        = ([], some "converting TRIGGER_PRICE") := by
  exact ⟨shortRec97_trigger, rfl, rfl, rfl⟩

/-- C4: code bug — in both sweep passes DeleteRecord runs only after the close
call of that record succeeded in the same pass (a failed close leaves the
record in place), but the close call the source makes is `cl.bid` (a BUY) in
CompleteLongTrades and `cl.ask` (a SELL) in CompleteShortTrades: the opposite
sides to the documented closing legs (sell for Long, rebuy for Short). -/
theorem sweep_delete_follows_buy_for_long :
    completeLongTradesPass (fun _ => Except.ok "close-1") [longRec]
        = [.orderPlaced .buy "long-1" true, .statsRecorded "long-1",
           .recordDeleted "long-1"] ∧
    completeLongTradesPass (fun _ => Except.error "rejected") [longRec]
        = [.orderPlaced .buy "long-1" false] ∧
    completeShortTradesPass (fun _ => Except.ok "close-2") [shortRec97]
        = [.orderPlaced .sell "short-1" true, .statsRecorded "short-1",
           .recordDeleted "short-1"] ∧
    completeShortTradesPass (fun _ => Except.error "rejected") [shortRec97]
        = [.orderPlaced .sell "short-1" false] := by
  exact ⟨rfl, rfl, rfl, rfl⟩

/-- C6 counterexample: a second AddRecord with an identical ID does not fail —
the RECORDS table has no key or uniqueness constraint, so the insert succeeds
and the table ends up with two rows carrying that ID. -/
theorem addRecord_duplicate_id_succeeds :
    AddRecord [recordRow shortRec97] shortRec97
        = Except.ok [recordRow shortRec97, recordRow shortRec97] ∧
    (List.filter (fun row => decide (row.ID = SqlValue.text shortRec97.ID))
        [recordRow shortRec97, recordRow shortRec97]).length = 2 := by
  exact ⟨rfl, rfl⟩

/-- C6 amended: AddRecord performs no duplicate check at all — for every
table and record the insert succeeds and appends one more row, so the number
of rows carrying the record's ID grows by one even when rows with that ID
already exist. -/
theorem addRecord_appends_unconditionally :
    ∀ (table : RecordsTable) (rec : Record),
      AddRecord table rec = Except.ok (table ++ [recordRow rec]) ∧
      (List.filter (fun row => decide (row.ID = SqlValue.text rec.ID))
          (table ++ [recordRow rec])).length
        = (List.filter (fun row => decide (row.ID = SqlValue.text rec.ID)) table).length
            + 1 := by
  intro table rec
  refine ⟨rfl, ?_⟩
  rw [List.filter_append, List.length_append]
  simp [recordRow]

/-- C7: code bug — on a handle fresh from Bot.Ledger() (open), a single Save
call marks the handle not-open but does NOT close the underlying database
(the source's guard `if !l.isOpen` is inverted); only a second Save would
close it. -/
theorem save_skips_close_on_open_handle :
    botLedger.isOpen = true ∧ botLedger.dbOpen = true ∧
    (Save botLedger).isOpen = false ∧ (Save botLedger).dbOpen = true ∧
    (Save (Save botLedger)).dbOpen = false := by
  exact ⟨rfl, rfl, rfl, rfl, rfl⟩

/-- C8: CheckBalanceSufficiency answers canPurchase = true iff the client's
(possibly refreshed) fiat balance is at least config.AdjustedPurchaseUnit,
and on GO_LONG without purchasing power the round body places no opening
order, still runs both sweeps, and falls through to the next client instead
of stopping the session. -/
theorem balance_gate_skips_opening :
    (∀ (config : Configuration) (fiatBalance refreshedBalance : ℚ),
      ((CheckBalanceSufficiency config fiatBalance refreshedBalance).1 = true ↔
        config.AdjustedPurchaseUnit ≤
          (if fiatBalance ≤ 0 then refreshedBalance else fiatBalance))) ∧
    (∀ o : RoundOracle,
      runSignalDispatch SignalLong false o
          = ([RoundEvent.longSweep, RoundEvent.shortSweep], RoundExit.nextClient)) := by
  constructor
  · intro config fiatBalance refreshedBalance
    simp only [CheckBalanceSufficiency]
    by_cases h :
        (if fiatBalance ≤ 0 then refreshedBalance else fiatBalance)
          < config.AdjustedPurchaseUnit
    · rw [if_pos h]
      exact iff_of_false (by simp) (not_le.mpr h)
    · rw [if_neg h]
      exact iff_of_true rfl (le_of_not_lt h)
  · intro o
    rfl

/-- The retry loop of Bot.Emit makes at most `errCount + fuel` attempts. -/
theorem emitLoopAux_attempts_le (attempt : ℕ → List ℚ × Option String) :
    ∀ (fuel errCount : ℕ) (st : List ℚ × Option String),
      (emitLoopAux attempt fuel errCount st).1 ≤ errCount + fuel := by
  intro fuel
  induction fuel with
  | zero =>
    intro errCount st
    simp [emitLoopAux]
  | succ n ih =>
    intro errCount st
    simp only [emitLoopAux]
    split
    · show errCount + 1 ≤ errCount + (n + 1)
      omega
    · exact le_trans (ih (errCount + 1) _) (by omega)

/-- C9: code bug — price retrieval in Bot.Emit is attempted at most 3 times,
but when every attempt fails the source does not return WAIT together with
the retrieval error: it evaluates `err.Error()` on the never-assigned nil
named return `err` (a nil-interface dereference), and even past that point
the error it would return is nil, not the retrieval error. -/
theorem emit_bounded_retries_then_nil_deref :
    (∀ attempt : ℕ → List ℚ × Option String, (emitLoop attempt).1 ≤ 3) ∧
    emitLoop (fun _ => ([], some "network error. check your connection status"))
        = (3, ([], some "network error. check your connection status")) ∧
    Emit (fun _ => ([], some "network error. check your connection status"))
        false (fun _ => none) SignalWait = EmitOutcome.panicked := by
  refine ⟨fun attempt => ?_, rfl, rfl⟩
  have h := emitLoopAux_attempts_le attempt retries 0 ([], none)
  simpa [emitLoop, retries] using h

/-- C10: on the failure path of Client.bid the order-placement response is
dereferenced before the error is checked (a nil response panics, and with a
non-nil response the OrderId field is read despite the error), whereas
Client.ask checks the error first and never touches the response on failure. -/
theorem bid_reads_response_before_error_check :
    (∀ e : String, bid none (some e) = OrderCallOutcome.panicked) ∧
    (∀ (r : PostMarketOrderResponse) (e : String),
      bid (some r) (some e) = OrderCallOutcome.returned r.OrderId (some e)) ∧
    (∀ (res : Option PostMarketOrderResponse) (e : String),
      ask res (some e) = OrderCallOutcome.returned "" (some e)) := by
  exact ⟨fun _ => rfl, fun _ _ => rfl, fun _ _ => rfl⟩

end Leprechaun
